import Mathlib

/-!
Verification of the Ozon tracking bot (src/main.py) against its specification.

The Python source is shallowly embedded below: pure helpers become Lean
functions, the network fetch becomes an oracle `String → FetchOutcome`, and
the JSON state file is modelled both at the untyped JSON level (for the
persistence/migration layer, where the document shape is in question) and at
the typed level (for the watch-loop and bot-handler logic, which runs on the
post-migration in-memory view).
-/

namespace OzonBot

/-! ## Text normalization (`normalize_text` in main.py) -/

/-- Whitespace characters recognized by Python `str.split()` / `str.strip()`
(the forms that can occur in the page texts handled here). -/
def isSpaceChar (c : Char) : Bool :=
  c = ' ' || c = '\t' || c = '\n' || c = '\r' || c = '\x0b' || c = '\x0c'

/-- Split a character list into whitespace-separated words, dropping empty
runs, as Python `s.split()` does.  `acc` holds the current word reversed. -/
def splitWords : List Char → List Char → List (List Char)
  | [], acc => if acc.isEmpty then [] else [acc.reverse]
  | c :: rest, acc =>
    if isSpaceChar c then
      if acc.isEmpty then splitWords rest [] else acc.reverse :: splitWords rest []
    else splitWords rest (c :: acc)

/-- Join words with single spaces, as Python `" ".join(...)`. -/
def joinSpace : List (List Char) → List Char
  | [] => []
  | [w] => w
  | w :: ws => w ++ ' ' :: joinSpace ws

/-- Python `str.lower()` restricted to the alphabets that occur in this
program: ASCII letters, the Cyrillic range А..Я, and Ё. -/
def lowerChar (c : Char) : Char :=
  if 65 ≤ c.toNat ∧ c.toNat ≤ 90 then Char.ofNat (c.toNat + 32)
  else if 0x410 ≤ c.toNat ∧ c.toNat ≤ 0x42F then Char.ofNat (c.toNat + 0x20)
  else if c.toNat = 0x401 then Char.ofNat 0x451
  else c

/-- Fold `ё` to `е` (`s.replace("ё", "е")` after lowering in main.py). -/
def yoFold (c : Char) : Char := if c = 'ё' then 'е' else c

/-- `normalize_text` from main.py: collapse whitespace runs to single spaces,
strip, lowercase, and fold `ё` to `е`. -/
def normalize_text (s : String) : String :=
  String.mk (((joinSpace (splitWords s.toList [])).map lowerChar).map yoFold)

/-! ## Substring containment (Python `needle in hay`) -/

/-- Containment of one character list in another, scanning start positions
left to right (Python substring membership). -/
def containsList (hay needle : List Char) : Bool :=
  match hay with
  | [] => needle.isEmpty
  | _ :: t => needle.isPrefixOf hay || containsList t needle

/-- Python `needle in hay` for strings. -/
def containsSub (hay needle : String) : Bool :=
  containsList hay.toList needle.toList

/-! ## Status vocabulary (STATUS_CANDIDATES / BLOCKED_HINTS in main.py) -/

/-- The ordered candidate-phrase list from main.py (priority order: the scan
in `ozon_get_statuses` walks it front to back). -/
def STATUS_CANDIDATES : List String := [
  "создан",
  "передается в доставку",
  "передаётся в доставку",
  "в пути",
  "заказ принят перевозчиком",
  "заказ везут на таможню в стране отправления",
  "заказ привезли на таможню для экспортного таможенного оформления",
  "заказ везут на таможню в стране назначения",
  "заказ привезли в страну назначения",
  "заказ передан на импортное таможенное оформление",
  "заказ проходит импортное таможенное оформление",
  "заказ выпущен импортной таможней",
  "заказ отправили на сортировочный терминал",
  "заказ покинул сортировочный терминал",
  "заказ ожидает отправки в город получателя",
  "заказ везут в город получателя",
  "заказ везут",
  "заказ передали в курьерскую доставку",
  "готово к выдаче",
  "на пункте выдачи",
  "прибыло",
  "передано",
  "получено",
  "доставлено",
  "заказ успешно доставлен получателю",
  "отправлено",
  "ожидает"
]

/-- The blocked-indicator phrases from main.py. -/
def BLOCKED_HINTS : List String := [
  "частный доступ",
  "access denied",
  "forbidden",
  "доступ ограничен",
  "bot",
  "captcha",
  "verify",
  "enable javascript"
]

/-! ## Status extraction (the per-page body of `ozon_get_statuses`) -/

/-- The anti-bot check of `ozon_get_statuses`: the first blocked hint that is
contained in the normalized body text or the normalized title. -/
def findBlocked (text titleN : String) : Option String :=
  BLOCKED_HINTS.find? (fun h => containsSub text h || containsSub titleN h)

/-- The candidate scan of `ozon_get_statuses`: the first candidate whose
normalized form is contained in the normalized body text (the Python loop
breaks at the first hit). -/
def findCandidate (text : String) : Option String :=
  STATUS_CANDIDATES.find? (fun c => containsSub text (normalize_text c))

/-- Status extraction for one fetched page, as in the per-track body of
`ozon_get_statuses`: normalize body and title, check blocked hints first and
short-circuit, otherwise scan the candidate list, otherwise report unknown. -/
def extractOne (body title : String) : String × String :=
  let text := normalize_text body
  let titleN := normalize_text title
  match findBlocked text titleN with
  | some h => ("blocked", "blocked: " ++ h)
  | none =>
    match findCandidate text with
    | some c => (c, "ok")
    | none => ("unknown", "no candidates matched")

/-! ## Fetching (`ozon_get_statuses` over a fetch oracle) -/

/-- Outcome of navigating to one tracking page: either the rendered body text
and page title, or a raised exception (by its type name). -/
inductive FetchOutcome where
  | page (body title : String)
  | err (name : String)

/-- Result recorded for one track in `ozon_get_statuses`: extraction on a
fetched page, or `("unknown", "error: …")` when the per-track try/except
catches an exception.  (A whole-session failure likewise records
`("unknown", "error: …")` for every track, with the same status range.) -/
def fetchResult : FetchOutcome → String × String
  | .page b t => extractOne b t
  | .err n => ("unknown", "error: " ++ n)

/-- `ozon_get_statuses`: one fetch per element of `tracks`, producing the
results dict as an association list. -/
def ozon_get_statuses (fetch : String → FetchOutcome) (tracks : List String) :
    List (String × (String × String)) :=
  tracks.map (fun t => (t, fetchResult (fetch t)))

/-- `status_map.get(track, ("unknown", "no result"))` from main.py. -/
def lookupStatus (m : List (String × (String × String))) (t : String) :
    String × String :=
  (List.lookup t m).getD ("unknown", "no result")

/-! ## Tracking records and the typed store view -/

/-- One tracking record (the per-track info dict in main.py); absent dict
keys are `none`. -/
structure TrackInfo where
  status : Option String := none
  last_check_reason : Option String := none
  last_check_at : Option Nat := none
  added_at : Option Nat := none
deriving Repr, DecidableEq

/-- The typed in-memory view of the `tracks` section after migration:
owner chat id → (tracking number → record). -/
abbrev Store := List (String × List (String × TrackInfo))

/-- `get_user_tracks` as a pure lookup with empty default (the `setdefault`
mutation is observationally realized by `setUserTracks` at write sites). -/
def getUserTracks (disk : Store) (chat : String) : List (String × TrackInfo) :=
  (List.lookup chat disk).getD []

/-- Write back one owner's track map into the store (in place when the owner
key exists, appended otherwise, as Python dict `setdefault`/assignment). -/
def setUserTracks : Store → String → List (String × TrackInfo) → Store
  | [], chat, tr => [(chat, tr)]
  | (c, t) :: rest, chat, tr =>
    if c = chat then (chat, tr) :: rest else (c, t) :: setUserTracks rest chat tr

/-! ## Per-record steps of the three status-writing operations -/

/-- The per-record body of the `check_all_tracks` inner loop: update the
diagnostic fields, persist a sentinel silently, store a first observation
silently, notify exactly on a lifecycle change.  Returns the new record, the
`changed_any` contribution, and the notification texts sent for this record. -/
def checkRecordStep (now : Nat) (track : String) (sr : String × String)
    (info : TrackInfo) : TrackInfo × Bool × List String :=
  let status := sr.1
  let info1 := { info with last_check_reason := some sr.2, last_check_at := some now }
  if status = "blocked" ∨ status = "unknown" then
    if info1.status ≠ some status then ({ info1 with status := some status }, true, [])
    else (info1, false, [])
  else
    match info1.status with
    | none => ({ info1 with status := some status }, true, [])
    | some old =>
      if old ≠ status then
        ({ info1 with status := some status }, true,
          ["📦 " ++ track ++ ": " ++ old ++ " → " ++ status])
      else (info1, false, [])

/-- The per-record body of the `check_user_tracks` loop (manual check):
notify when the new result is a lifecycle status different from a previously
stored non-null status, then store any differing result. -/
def checkUserRecordStep (now : Nat) (track : String) (sr : String × String)
    (info : TrackInfo) : TrackInfo × List String :=
  let status := sr.1
  let info1 := { info with last_check_reason := some sr.2, last_check_at := some now }
  let notifs :=
    match info1.status with
    | some old =>
      if status ≠ "blocked" ∧ status ≠ "unknown" ∧ old ≠ status then
        ["📦 " ++ track ++ ": " ++ old ++ " → " ++ status]
      else []
    | none => []
  if info1.status ≠ some status then ({ info1 with status := some status }, notifs)
  else (info1, notifs)

/-- The write performed by the one-shot check after a first add in
`handle_text`: store the fetched status and the diagnostic fields. -/
def firstAddCheckStep (now : Nat) (sr : String × String) (info : TrackInfo) :
    TrackInfo :=
  { info with
    status := some sr.1
    last_check_reason := some sr.2
    last_check_at := some now }

/-! ## The whole-batch poll cycle (`check_all_tracks`) -/

/-- Flatten all owners' tracking numbers, as the `flat` list in
`check_all_tracks`. -/
def flatTracks (allUsers : Store) : List String :=
  (allUsers.map (fun p => p.2.map Prod.fst)).flatten

/-- `list(dict.fromkeys(flat))`: de-duplicate keeping first occurrences in
order.  `seen` accumulates the keys already emitted. -/
def dedupAux : List String → List String → List String
  | [], _ => []
  | x :: xs, seen =>
    if x ∈ seen then dedupAux xs seen else x :: dedupAux xs (x :: seen)

/-- De-duplication of the flattened track list before the batched fetch. -/
def dedupFirst (l : List String) : List String := dedupAux l []

/-- `check_all_tracks`: one poll cycle over the whole store.  Returns the
store as persisted afterwards (unchanged when no record's status changed,
since the save is skipped) and the notifications sent as (chat, text). -/
def check_all_tracks (now : Nat) (fetch : String → FetchOutcome) (disk : Store) :
    Store × List (String × String) :=
  if disk.isEmpty then (disk, [])
  else
    let sm := ozon_get_statuses fetch (dedupFirst (flatTracks disk))
    let stepped := disk.map (fun p =>
      (p.1, p.2.map (fun q => (q.1, checkRecordStep now q.1 (lookupStatus sm q.1) q.2))))
    let notifs := (stepped.map (fun p =>
      (p.2.map (fun q => q.2.2.2.map (fun m => (p.1, m)))).flatten)).flatten
    let changedAny := stepped.any (fun p => p.2.any (fun q => q.2.2.1))
    let disk' := if changedAny then
        stepped.map (fun p => (p.1, p.2.map (fun q => (q.1, q.2.1))))
      else disk
    (disk', notifs)

/-- `check_user_tracks`: manual whole-owner check triggered by the
"check now" button. -/
def check_user_tracks (now : Nat) (fetch : String → FetchOutcome) (disk : Store)
    (chat : String) : Store × List (String × String) :=
  let tracks := getUserTracks disk chat
  if tracks.isEmpty then (disk, [])
  else
    let sm := ozon_get_statuses fetch (tracks.map Prod.fst)
    let stepped := tracks.map (fun q =>
      (q.1, checkUserRecordStep now q.1 (lookupStatus sm q.1) q.2))
    let notifs := (stepped.map (fun q => q.2.2.map (fun m => (chat, m)))).flatten
    let changed := tracks.any (fun q =>
      decide (q.2.status ≠ some (lookupStatus sm q.1).1))
    let disk' := if changed then setUserTracks disk chat (stepped.map (fun q => (q.1, q.2.1)))
      else disk
    (disk', notifs)

/-! ## The tracking-number pattern TRACK_RE = `(?:[?&]track=)?(\d[\d\-]{6,})` -/

/-- ASCII digit test. -/
def digitChar (c : Char) : Bool := '0' ≤ c && c ≤ '9'

/-- Characters allowed in the tracking-number body `[\d\-]`. -/
def bodyChar (c : Char) : Bool := digitChar c || c = '-'

/-- The two literal forms of the optional `[?&]track=` prefix. -/
def trackUrlHeads : List (List Char) := ["?track=".toList, "&track=".toList]

/-- Greedy match of the capture group `\d[\d\-]{6,}` anchored at the start of
`cs`: a digit followed by the maximal run of digits/hyphens, total length at
least 7.  Returns the captured characters. -/
def matchBodyAt (cs : List Char) : Option (List Char) :=
  match cs with
  | c :: _ =>
    if digitChar c then
      let run := cs.takeWhile bodyChar
      if 7 ≤ run.length then some run else none
    else none
  | [] => none

/-- One anchored attempt of TRACK_RE at the start of `cs`: the optional
prefix is tried greedily first, then the bare group, as the regex engine
does. -/
def matchAt (cs : List Char) : Option (List Char) :=
  match trackUrlHeads.find? (fun p => p.isPrefixOf cs) with
  | some p =>
    match matchBodyAt (cs.drop p.length) with
    | some g => some g
    | none => matchBodyAt cs
  | none => matchBodyAt cs

/-- Leftmost-match scan of `re.search`. -/
def searchAux : List Char → Option (List Char)
  | [] => none
  | c :: rest =>
    match matchAt (c :: rest) with
    | some g => some g
    | none => searchAux rest

/-- `TRACK_RE.search(text)` returning `group(1)`. -/
def trackSearch (s : String) : Option String :=
  (searchAux s.toList).map String.mk

/-- `TRACK_RE.fullmatch(k)`: the whole string is the optional prefix followed
by the group, which must extend to the end. -/
def trackFullmatch (s : String) : Bool :=
  let cs := s.toList
  let full := fun (r : List Char) =>
    match r with
    | c :: rest => digitChar c && rest.all bodyChar && 6 ≤ rest.length
    | [] => false
  full cs || trackUrlHeads.any (fun p => p.isPrefixOf cs && full (cs.drop p.length))

/-! ## Bot handlers (the chat layer around the core) -/

/-- A user-visible response produced by a handler: a chat reply, a silent
callback acknowledgement, or a callback alert popup. -/
inductive Resp where
  | reply (text : String)
  | answer
  | answerAlert (text : String)
deriving Repr, DecidableEq

/-- One incoming Telegram update, reduced to the fields the handlers read. -/
structure Update where
  chatId : String
  messageText : Option String := none
  callbackData : Option String := none

/-- `only_me`: serve everyone when no CHAT_ID is configured, else only the
configured chat. -/
def only_me (cfg : String) (u : Update) : Bool :=
  (cfg == "") || (u.chatId == cfg)

/-- Mode constants from main.py. -/
def MODE_NONE : String := "none"

/-- Mode entered by the add button. -/
def MODE_ADD : String := "add"

/-- Mode entered by the remove button. -/
def MODE_REMOVE : String := "remove"

/-- Greeting text of `/start`. -/
def startText : String :=
  "🤖 Бот запущен.\nЖми кнопки снизу или присылай ссылку/трек вида:\nhttps://tracking.ozon.ru/?track=94044975-0220-1\nили просто: 94044975-0220-1"

/-- Help text of `/help` (interpolates POLL_SECONDS // 60). -/
def helpText (pollSeconds : Nat) : String :=
  "ℹ️ Помощь:\n• «➕ Добавить трек» — добавить трек\n• «📦 Мои посылки» — показать список\n• «🔄 Проверить сейчас» — проверить вручную\n• «➖ Удалить трек» — удалить трек\n\nОпрос статусов раз в " ++ toString (pollSeconds / 60) ++ " мин.\nМожно присылать ссылку tracking.ozon.ru/?track=... или просто номер."

/-- `cmd_start`: silent for unauthorized senders, otherwise the greeting. -/
def cmd_start (cfg : String) (u : Update) : List Resp :=
  if !only_me cfg u then [] else [Resp.reply startText]

/-- `cmd_help`: silent for unauthorized senders, otherwise the help text. -/
def cmd_help (cfg : String) (pollSeconds : Nat) (u : Update) : List Resp :=
  if !only_me cfg u then [] else [Resp.reply (helpText pollSeconds)]

/-- One line of the track listing: `• track — status`, where a null (or
falsy) stored status prints as "unknown". -/
def statusLine (q : String × TrackInfo) : String :=
  "• " ++ q.1 ++ " — " ++
    (match q.2.status with
     | some s => if s = "" then "unknown" else s
     | none => "unknown")

/-- `show_tracks`: the listing reply. -/
def show_tracks (disk : Store) (chat : String) : List Resp :=
  let tracks := getUserTracks disk chat
  if tracks.isEmpty then [Resp.reply "📦 Пока нет отслеживаемых треков."]
  else
    [Resp.reply (String.intercalate "\n"
      ("📦 Отслеживаемые треки:" :: tracks.map statusLine))]

/-- Result of `on_button`: responses, the new conversation mode, the store as
persisted afterwards, and notifications sent through `tg_send`. -/
structure BtnOut where
  resps : List Resp
  mode : String
  disk : Store
  notifs : List (String × String)
deriving Repr, DecidableEq

/-- `on_button`: the callback-query handler.  Unauthorized senders get an
alert popup "Недоступно"; authorized ones an acknowledgement followed by the
branch for their button. -/
def on_button (cfg : String) (pollSeconds : Nat) (now : Nat)
    (fetch : String → FetchOutcome) (mode : String) (disk : Store) (u : Update) :
    BtnOut :=
  match u.callbackData with
  | none => ⟨[], mode, disk, []⟩
  | some data =>
    if !only_me cfg u then ⟨[Resp.answerAlert "Недоступно"], mode, disk, []⟩
    else
      let chat := u.chatId
      if data = "help" then
        ⟨Resp.answer :: cmd_help cfg pollSeconds u, MODE_NONE, disk, []⟩
      else if data = "list" then
        ⟨Resp.answer :: show_tracks disk chat, MODE_NONE, disk, []⟩
      else if data = "add" then
        ⟨[Resp.answer, Resp.reply "Пришли ссылку/трек вида:\nhttps://tracking.ozon.ru/?track=94044975-0220-1\nили просто 94044975-0220-1"], MODE_ADD, disk, []⟩
      else if data = "remove" then
        if (getUserTracks disk chat).isEmpty then
          ⟨[Resp.answer, Resp.reply "Удалять нечего — список пуст."], MODE_NONE, disk, []⟩
        else
          ⟨[Resp.answer, Resp.reply "Выбери трек для удаления:"], MODE_REMOVE, disk, []⟩
      else if data.startsWith "del:" then
        let track := data.drop 4
        let tracks := getUserTracks disk chat
        if (List.lookup track tracks).isSome then
          ⟨[Resp.answer, Resp.reply ("✅ Удалил трек: " ++ track)], MODE_NONE,
            setUserTracks disk chat (tracks.filter (fun q => q.1 ≠ track)), []⟩
        else
          ⟨[Resp.answer, Resp.reply "Такого трека нет в списке."], MODE_NONE, disk, []⟩
      else if data = "check_now" then
        let r := check_user_tracks now fetch disk chat
        ⟨[Resp.answer, Resp.reply "⏳ Проверяю…", Resp.reply "Готово ✅"], MODE_NONE,
          r.1, r.2⟩
      else if data = "back" then
        ⟨[Resp.answer, Resp.reply "Ок."], MODE_NONE, disk, []⟩
      else ⟨[Resp.answer], mode, disk, []⟩

/-- Result of `handle_text`: responses, new mode, and the store as persisted
afterwards. -/
structure HtOut where
  resps : List Resp
  mode : String
  disk : Store
deriving Repr, DecidableEq

/-- Python `str.strip()` on the escapes occurring here. -/
def stripWs (s : String) : String :=
  String.mk (((s.toList.dropWhile isSpaceChar).reverse.dropWhile isSpaceChar).reverse)

/-- `handle_text`: the free-text handler.  Unauthorized senders are ignored
silently; otherwise remove mode, duplicate detection, or add followed by the
immediate one-shot status check. -/
def handle_text (cfg : String) (now : Nat) (fetch : String → FetchOutcome)
    (mode : String) (disk : Store) (u : Update) : HtOut :=
  if !only_me cfg u then ⟨[], mode, disk⟩
  else
    let text := stripWs (u.messageText.getD "")
    let chat := u.chatId
    if mode = MODE_REMOVE then
      match trackSearch text with
      | none => ⟨[Resp.reply "Не вижу номер трека. Пришли его ещё раз."], mode, disk⟩
      | some track =>
        let tracks := getUserTracks disk chat
        if (List.lookup track tracks).isNone then
          ⟨[Resp.reply "Такого трека нет в списке."], MODE_NONE, disk⟩
        else
          ⟨[Resp.reply ("✅ Удалил трек: " ++ track)], MODE_NONE,
            setUserTracks disk chat (tracks.filter (fun q => q.1 ≠ track))⟩
    else
      match trackSearch text with
      | none => ⟨[Resp.reply "Я жду трек/ссылку tracking.ozon.ru/?track=... или кнопки 🙂"], mode, disk⟩
      | some track =>
        let tracks := getUserTracks disk chat
        if (List.lookup track tracks).isSome then
          ⟨[Resp.reply ("Уже отслеживается: " ++ track)], MODE_NONE, disk⟩
        else
          let disk1 := setUserTracks disk chat
            (tracks ++ [(track, { status := none, added_at := some now })])
          let sr := lookupStatus (ozon_get_statuses fetch [track]) track
          let tracks2 := getUserTracks disk1 chat
          let disk2 :=
            if (List.lookup track tracks2).isSome then
              setUserTracks disk1 chat (tracks2.map (fun q =>
                if q.1 = track then (q.1, firstAddCheckStep now sr q.2) else q))
            else disk1
          let tailResp :=
            if sr.1 = "blocked" then
              Resp.reply ("⚠️ Ozon не отдал страницу боту (похоже на антибот/«частный доступ»).\nПричина: " ++ sr.2 ++ "\nЯ всё равно буду пробовать дальше по расписанию.")
            else if sr.1 = "unknown" then
              Resp.reply ("🤷 Пока не смог вытащить статус (unknown).\nПричина: " ++ sr.2 ++ "\nЯ буду пробовать дальше по расписанию.")
            else Resp.reply ("📦 Статус сейчас: " ++ sr.1)
          ⟨[Resp.reply ("✅ Добавил трек: " ++ track),
            Resp.reply "⏳ Проверяю статус…", tailResp], MODE_NONE, disk2⟩

/-! ## Persistence at the JSON level (`load_state` / `migrate_state` / `save_state`) -/

/-- Untyped JSON values, as returned by `json.loads`. -/
inductive J where
  | null
  | bool (b : Bool)
  | num (n : Int)
  | str (s : String)
  | arr (elems : List J)
  | obj (fields : List (String × J))

/-- Python truthiness of a JSON value. -/
def truthy : J → Bool
  | .null => false
  | .bool b => b
  | .num n => n != 0
  | .str s => !s.isEmpty
  | .arr l => !l.isEmpty
  | .obj fs => !fs.isEmpty

/-- Python dict assignment `d[k] = v`: replace in place, else append. -/
def setKey : List (String × J) → String → J → List (String × J)
  | [], k, v => [(k, v)]
  | (k', v') :: rest, k, v =>
    if k' = k then (k, v) :: rest else (k', v') :: setKey rest k v

/-- Python dict `d.setdefault(k, v)`. -/
def setDefaultKey (fs : List (String × J)) (k : String) (v : J) :
    List (String × J) :=
  if (List.lookup k fs).isSome then fs else fs ++ [(k, v)]

/-- The owner key a legacy flat layout is wrapped under: the configured
CHAT_ID, or the placeholder when none is configured (`CHAT_ID or
"__legacy__"`). -/
def wrapChat (cfg : String) : String := if cfg = "" then "__legacy__" else cfg

/-- `migrate_state`: detect a legacy flat tracks mapping (non-empty, every
key a full tracking-number match) and wrap it under one owner key, then
ensure the `tracks` and `meta` keys exist.  `none` models the AttributeError
raised on non-dict shapes (caught by `load_state`). -/
def migrate_state (cfg : String) (st : J) : Option J :=
  match st with
  | .obj fs =>
    let tracksJ := (List.lookup "tracks" fs).getD (J.obj [])
    if truthy tracksJ then
      match tracksJ with
      | .obj tfs =>
        let fs1 :=
          if tfs.all (fun kv => trackFullmatch kv.1) then
            setKey fs "tracks" (J.obj [(wrapChat cfg, J.obj tfs)])
          else fs
        some (J.obj (setDefaultKey (setDefaultKey fs1 "tracks" (J.obj []))
          "meta" (J.obj [])))
      | _ => none
    else
      some (J.obj (setDefaultKey (setDefaultKey fs "tracks" (J.obj []))
        "meta" (J.obj [])))
  | _ => none

/-- The empty store returned on any load failure. -/
def emptyState : J := J.obj [("tracks", J.obj []), ("meta", J.obj [])]

/-- `load_state`: parse the persisted file (`none` models a read or
`json.loads` failure) and migrate; any exception inside the `try` yields the
empty store. -/
def load_state (cfg : String) (raw : Option J) : J :=
  match raw with
  | none => emptyState
  | some st =>
    match migrate_state cfg st with
    | some st' => st'
    | none => emptyState

/-- `save_state` writes `json.dumps(state)`; since `json.loads ∘ json.dumps`
is the identity on these documents, the persisted document is the state
itself. -/
def save_state (st : J) : J := st

/-! ## Concrete inputs used by counterexamples and witnesses -/

/-- A page text containing two overlapping candidate phrases: the specific
customs phrase (list index 5) and the generic "заказ везут" (list index 16). -/
def c1text : String := "статус: заказ везут на таможню в стране отправления"

/-- A page text matching no candidate phrase and no blocked hint. -/
def c8text : String := "hello world"

/-- The values a check may write into a record's status: a recognized
canonical status or one of the two sentinels. -/
def recognizedOrSentinel (s : String) : Prop :=
  s ∈ STATUS_CANDIDATES ∨ s = "unknown" ∨ s = "blocked"

/-- A legacy flat tracks mapping used by the C7 witness. -/
def c7tracksFlat : List (String × J) :=
  [("94044975-0220-1", J.obj [("status", J.null)])]

/-- A legacy single-owner persisted document used by the C7 witness. -/
def c7doc : List (String × J) :=
  [("tracks", J.obj c7tracksFlat), ("meta", J.obj [])]

/-- An update from an unauthorized chat used by the C9 theorems. -/
def c9update : Update :=
  { chatId := "999", messageText := some "94044975-0220-1",
    callbackData := some "list" }

/-! ## Helper lemmas -/

/-- A satisfying element makes `find?` succeed, returning a satisfying
member of the list. -/
theorem find?_exists_some {α : Type} (p : α → Bool) (l : List α)
    (h : ∃ x ∈ l, p x = true) :
    ∃ y, l.find? p = some y ∧ p y = true ∧ y ∈ l := by
  cases hf : l.find? p with
  | none =>
    obtain ⟨x, hx, hpx⟩ := h
    rw [List.find?_eq_none] at hf
    exact absurd hpx (hf x hx)
  | some y => exact ⟨y, rfl, List.find?_some hf, List.mem_of_find?_eq_some hf⟩

/-- In a duplicate-free list, every element listed strictly before the one
`find?` returns fails the predicate. -/
theorem find?_earlier_false {α : Type} [DecidableEq α] (p : α → Bool) :
    ∀ (l : List α), l.Nodup → ∀ c, l.find? p = some c →
      ∀ d ∈ l, List.indexOf d l < List.indexOf c l → p d = false := by
  intro l
  induction l with
  | nil => intro _ c hc; simp at hc
  | cons a t ih =>
    intro hnd c hc d hd hlt
    cases hpa : p a with
    | true =>
      rw [List.find?_cons_of_pos _ hpa] at hc
      injection hc with hc
      subst hc
      rw [List.indexOf_cons_self] at hlt
      exact absurd hlt (Nat.not_lt_zero _)
    | false =>
      rw [List.find?_cons_of_neg _ (by simp [hpa])] at hc
      have hca : c ≠ a := by
        rintro rfl
        rw [List.find?_some hc] at hpa
        exact Bool.noConfusion hpa
      rcases List.mem_cons.mp hd with rfl | hdt
      · exact hpa
      · have hda : d ≠ a := by
          rintro rfl
          exact (List.nodup_cons.mp hnd).1 hdt
        rw [List.indexOf_cons_ne t hda.symm, List.indexOf_cons_ne t hca.symm] at hlt
        exact ih (List.nodup_cons.mp hnd).2 c hc d hdt (Nat.lt_of_succ_lt_succ hlt)

/-! ## Claim C1 (corrected) -/

/-- Claim C1, as stated, is false: on a page text containing both the
specific customs phrase (candidate index 5) and its substring "заказ везут"
(candidate index 16), extraction returns the candidate that appears EARLIER
in the priority-ordered list, not the later one. -/
theorem c1_counterexample :
    containsSub (normalize_text c1text) (normalize_text "заказ везут") = true ∧
    containsSub (normalize_text c1text)
      (normalize_text "заказ везут на таможню в стране отправления") = true ∧
    List.indexOf "заказ везут на таможню в стране отправления" STATUS_CANDIDATES <
      List.indexOf "заказ везут" STATUS_CANDIDATES ∧
    extractOne c1text "" = ("заказ везут на таможню в стране отправления", "ok") ∧
    (extractOne c1text "").1 ≠ "заказ везут" := by decide

/-- Claim C1 (amended): for every page text with no blocked hint that
contains at least one candidate phrase, extraction returns the FIRST
candidate in priority-list order whose normalized form is contained in the
normalized text — the scan stops at the first match, and every candidate
listed strictly earlier is not contained. -/
theorem c1_first_match_wins (body title : String)
    (hb : findBlocked (normalize_text body) (normalize_text title) = none)
    (hc : ∃ c ∈ STATUS_CANDIDATES,
      containsSub (normalize_text body) (normalize_text c) = true) :
    ∃ c ∈ STATUS_CANDIDATES,
      extractOne body title = (c, "ok") ∧
      containsSub (normalize_text body) (normalize_text c) = true ∧
      ∀ d ∈ STATUS_CANDIDATES,
        List.indexOf d STATUS_CANDIDATES < List.indexOf c STATUS_CANDIDATES →
        containsSub (normalize_text body) (normalize_text d) = false := by
  obtain ⟨y, hy, hpy, hmem⟩ := find?_exists_some
    (fun c => containsSub (normalize_text body) (normalize_text c)) STATUS_CANDIDATES hc
  refine ⟨y, hmem, ?_, hpy, ?_⟩
  · simp only [extractOne]
    rw [hb]
    have hfc : findCandidate (normalize_text body) = some y := hy
    rw [hfc]
  · intro d hd hlt
    exact find?_earlier_false _ STATUS_CANDIDATES (by decide) y hy d hd hlt

/-- Witness for C1 (amended) at a concrete page text. -/
theorem c1_first_match_wins_witness :
    (findBlocked (normalize_text c1text) (normalize_text "") = none ∧
      ∃ c ∈ STATUS_CANDIDATES,
        containsSub (normalize_text c1text) (normalize_text c) = true) ∧
    ∃ c ∈ STATUS_CANDIDATES,
      extractOne c1text "" = (c, "ok") ∧
      containsSub (normalize_text c1text) (normalize_text c) = true ∧
      ∀ d ∈ STATUS_CANDIDATES,
        List.indexOf d STATUS_CANDIDATES < List.indexOf c STATUS_CANDIDATES →
        containsSub (normalize_text c1text) (normalize_text d) = false :=
  ⟨⟨by decide, by decide⟩, c1_first_match_wins c1text "" (by decide) (by decide)⟩

/-! ## Claim C2 (confirmed) -/

/-- Claim C2: whenever some blocked-indicator phrase occurs in the
normalized body text or title, extraction returns the `blocked` sentinel
with a matched indicator in the reason, regardless of any candidate phrase
also present — the blocked check runs first and short-circuits. -/
theorem c2_blocked_short_circuit (body title : String)
    (h : ∃ g ∈ BLOCKED_HINTS,
      (containsSub (normalize_text body) g ||
        containsSub (normalize_text title) g) = true) :
    (extractOne body title).1 = "blocked" ∧
    ∃ g ∈ BLOCKED_HINTS,
      (containsSub (normalize_text body) g ||
        containsSub (normalize_text title) g) = true ∧
      (extractOne body title).2 = "blocked: " ++ g := by
  obtain ⟨y, hy, hpy, hmem⟩ := find?_exists_some
    (fun g => containsSub (normalize_text body) g ||
      containsSub (normalize_text title) g) BLOCKED_HINTS h
  have hb : findBlocked (normalize_text body) (normalize_text title) = some y := hy
  have he : extractOne body title = ("blocked", "blocked: " ++ y) := by
    simp only [extractOne]
    rw [hb]
  rw [he]
  exact ⟨rfl, y, hmem, hpy, rfl⟩

/-- Witness for C2 at a page text containing both a lifecycle phrase and a
blocked hint. -/
theorem c2_blocked_short_circuit_witness :
    (∃ g ∈ BLOCKED_HINTS,
      (containsSub (normalize_text "в пути CAPTCHA") g ||
        containsSub (normalize_text "") g) = true) ∧
    (extractOne "в пути CAPTCHA" "").1 = "blocked" ∧
    ∃ g ∈ BLOCKED_HINTS,
      (containsSub (normalize_text "в пути CAPTCHA") g ||
        containsSub (normalize_text "") g) = true ∧
      (extractOne "в пути CAPTCHA" "").2 = "blocked: " ++ g :=
  ⟨by decide, c2_blocked_short_circuit "в пути CAPTCHA" "" (by decide)⟩

/-! ## Claim C8 (corrected) -/

/-- Claim C8, as stated, is false only in its reason literal: on a page text
with no candidate phrase and no blocked hint, extraction returns `unknown`
with the reason string "no candidates matched", not `no-match`. -/
theorem c8_counterexample :
    extractOne c8text "" = ("unknown", "no candidates matched") ∧
    (extractOne c8text "").2 ≠ "no-match" := by decide

/-- Claim C8 (amended): for every page text containing no candidate phrase
and no blocked-indicator phrase after normalization, extraction returns the
`unknown` sentinel with the diagnostic reason "no candidates matched". -/
theorem c8_no_match (body title : String)
    (h1 : ∀ g ∈ BLOCKED_HINTS,
      (containsSub (normalize_text body) g ||
        containsSub (normalize_text title) g) = false)
    (h2 : ∀ c ∈ STATUS_CANDIDATES,
      containsSub (normalize_text body) (normalize_text c) = false) :
    extractOne body title = ("unknown", "no candidates matched") := by
  have hb : findBlocked (normalize_text body) (normalize_text title) = none := by
    rw [findBlocked, List.find?_eq_none]
    intro x hx
    simp [h1 x hx]
  have hc : findCandidate (normalize_text body) = none := by
    rw [findCandidate, List.find?_eq_none]
    intro x hx
    simp [h2 x hx]
  simp only [extractOne]
  rw [hb, hc]

/-- Witness for C8 (amended) at a concrete unmatched page text. -/
theorem c8_no_match_witness :
    ((∀ g ∈ BLOCKED_HINTS,
      (containsSub (normalize_text c8text) g ||
        containsSub (normalize_text "") g) = false) ∧
     (∀ c ∈ STATUS_CANDIDATES,
      containsSub (normalize_text c8text) (normalize_text c) = false)) ∧
    extractOne c8text "" = ("unknown", "no candidates matched") :=
  ⟨⟨by decide, by decide⟩, c8_no_match c8text "" (by decide) (by decide)⟩

/-! ## Claim C3 (confirmed) -/

/-- Claim C3: in a poll-cycle step, a record whose stored status is null
emits no notification, and a step whose fresh result is the `unknown` or
`blocked` sentinel emits no notification while the sentinel is still
persisted as the status. -/
theorem c3_init_and_sentinels_silent (now : Nat) (track status reason : String)
    (info : TrackInfo)
    (h : info.status = none ∨ status = "unknown" ∨ status = "blocked") :
    (checkRecordStep now track (status, reason) info).2.2 = [] ∧
    ((status = "unknown" ∨ status = "blocked") →
      (checkRecordStep now track (status, reason) info).1.status = some status) ∧
    (info.status = none →
      (checkRecordStep now track (status, reason) info).1.status = some status) := by
  by_cases hs : status = "blocked" ∨ status = "unknown"
  · by_cases h2 : info.status = some status
    · simp [checkRecordStep, if_pos hs, h2]
    · simp [checkRecordStep, if_pos hs, h2]
  · have hn : info.status = none := by
      rcases h with h | h | h
      · exact h
      · exact absurd (Or.inr h) hs
      · exact absurd (Or.inl h) hs
    have hns : ¬(status = "unknown" ∨ status = "blocked") := by
      rintro (h' | h')
      · exact hs (Or.inr h')
      · exact hs (Or.inl h')
    simp [checkRecordStep, if_neg hs, hn, hns]

/-- Witness for C3: a sentinel result over a stored lifecycle status is
persisted without a notification. -/
theorem c3_init_and_sentinels_silent_witness :
    (({ status := some "в пути" } : TrackInfo).status = none ∨
      "unknown" = "unknown" ∨ "unknown" = "blocked") ∧
    (checkRecordStep 5 "94044975-0220-1" ("unknown", "no candidates matched")
      { status := some "в пути" }).2.2 = [] ∧
    (("unknown" = "unknown" ∨ "unknown" = "blocked") →
      (checkRecordStep 5 "94044975-0220-1" ("unknown", "no candidates matched")
        { status := some "в пути" }).1.status = some "unknown") ∧
    (({ status := some "в пути" } : TrackInfo).status = none →
      (checkRecordStep 5 "94044975-0220-1" ("unknown", "no candidates matched")
        { status := some "в пути" }).1.status = some "unknown") :=
  ⟨by decide, c3_init_and_sentinels_silent 5 "94044975-0220-1" "unknown"
    "no candidates matched" { status := some "в пути" } (by decide)⟩

/-! ## Claim C4 (confirmed) -/

/-- Claim C4: a poll-cycle step taking a record from lifecycle status A to a
distinct lifecycle status B emits exactly one notification, of the form
"📦 number: old → new" (so containing both A and B), and persists B. -/
theorem c4_transition_notifies (now : Nat) (track A B reason : String)
    (info : TrackInfo) (hA : info.status = some A)
    (_hAmem : A ∈ STATUS_CANDIDATES) (hBmem : B ∈ STATUS_CANDIDATES)
    (hAB : A ≠ B) :
    (checkRecordStep now track (B, reason) info).2.2 =
      ["📦 " ++ track ++ ": " ++ A ++ " → " ++ B] ∧
    (checkRecordStep now track (B, reason) info).1.status = some B := by
  have hall : ∀ b ∈ STATUS_CANDIDATES, b ≠ "blocked" ∧ b ≠ "unknown" := by decide
  have hBnot : ¬(B = "blocked" ∨ B = "unknown") := by
    rcases hall B hBmem with ⟨hb, hu⟩
    rintro (h' | h')
    · exact hb h'
    · exact hu h'
  simp [checkRecordStep, if_neg hBnot, hA, hAB]

/-- Witness for C4 at a concrete transition "в пути" → "доставлено". -/
theorem c4_transition_notifies_witness :
    (({ status := some "в пути" } : TrackInfo).status = some "в пути" ∧
      "в пути" ∈ STATUS_CANDIDATES ∧ "доставлено" ∈ STATUS_CANDIDATES ∧
      "в пути" ≠ "доставлено") ∧
    (checkRecordStep 9 "94044975-0220-1" ("доставлено", "ok")
      { status := some "в пути" }).2.2 =
      ["📦 " ++ "94044975-0220-1" ++ ": " ++ "в пути" ++ " → " ++ "доставлено"] ∧
    (checkRecordStep 9 "94044975-0220-1" ("доставлено", "ok")
      { status := some "в пути" }).1.status = some "доставлено" :=
  ⟨⟨by decide, by decide, by decide, by decide⟩,
    c4_transition_notifies 9 "94044975-0220-1" "в пути" "доставлено" "ok"
      { status := some "в пути" } (by decide) (by decide) (by decide) (by decide)⟩

/-! ## Claim C5 (confirmed) -/

/-- The poll-cycle step either keeps the stored status or writes the fresh
result. -/
theorem checkRecordStep_status_cases (now : Nat) (track : String)
    (sr : String × String) (info : TrackInfo) :
    (checkRecordStep now track sr info).1.status = info.status ∨
    (checkRecordStep now track sr info).1.status = some sr.1 := by
  unfold checkRecordStep
  by_cases hs : sr.1 = "blocked" ∨ sr.1 = "unknown"
  · by_cases h2 : info.status = some sr.1
    · simp [if_pos hs, h2]
    · simp [if_pos hs, h2]
  · cases hi : info.status with
    | none => simp [if_neg hs, hi]
    | some old =>
      by_cases h3 : old = sr.1
      · simp [if_neg hs, hi, h3]
      · simp [if_neg hs, hi, h3]

/-- The manual-check step either keeps the stored status or writes the fresh
result. -/
theorem checkUserRecordStep_status_cases (now : Nat) (track : String)
    (sr : String × String) (info : TrackInfo) :
    (checkUserRecordStep now track sr info).1.status = info.status ∨
    (checkUserRecordStep now track sr info).1.status = some sr.1 := by
  unfold checkUserRecordStep
  by_cases h2 : info.status = some sr.1
  · simp [h2]
  · simp [h2]

/-- Extraction on a page only ever yields a recognized candidate or a
sentinel. -/
theorem extractOne_status_range (body title : String) :
    recognizedOrSentinel (extractOne body title).1 := by
  simp only [extractOne]
  cases hb : findBlocked (normalize_text body) (normalize_text title) with
  | some h => simp [recognizedOrSentinel]
  | none =>
    cases hc : findCandidate (normalize_text body) with
    | some c =>
      have hm : c ∈ STATUS_CANDIDATES := List.mem_of_find?_eq_some hc
      simpa [recognizedOrSentinel] using Or.inl hm
    | none => simp [recognizedOrSentinel]

/-- A per-track fetch result's status is a recognized candidate or a
sentinel. -/
theorem fetchResult_range (o : FetchOutcome) :
    recognizedOrSentinel (fetchResult o).1 := by
  cases o with
  | page b t => exact extractOne_status_range b t
  | err n => simp [fetchResult, recognizedOrSentinel]

/-- A lookup in a list of pairs built by pairing each key with a function
value returns a value of that function. -/
theorem lookup_map_pair {α β : Type} [DecidableEq α] (f : α → β)
    (l : List α) (t : α) (v : β)
    (h : List.lookup t (l.map fun x => (x, f x)) = some v) : ∃ s ∈ l, v = f s := by
  induction l with
  | nil => simp [List.lookup] at h
  | cons a as ih =>
    by_cases ht : t = a
    · subst ht
      simp [List.lookup] at h
      exact ⟨t, List.mem_cons_self t as, h.symm⟩
    · have hba : (t == a) = false := beq_eq_false_iff_ne.mpr ht
      simp only [List.map_cons, List.lookup, hba] at h
      obtain ⟨s, hs, hv⟩ := ih h
      exact ⟨s, List.mem_cons_of_mem a hs, hv⟩

/-- The status looked up in the batched result map is a recognized candidate
or a sentinel (the lookup default is the `unknown` sentinel). -/
theorem lookupStatus_range (fetch : String → FetchOutcome)
    (tracks : List String) (t : String) :
    recognizedOrSentinel (lookupStatus (ozon_get_statuses fetch tracks) t).1 := by
  unfold lookupStatus ozon_get_statuses
  cases hl : List.lookup t (tracks.map fun x => (x, fetchResult (fetch x))) with
  | none => simp [recognizedOrSentinel]
  | some v =>
    obtain ⟨s, _, rfl⟩ := lookup_map_pair _ tracks t v hl
    simpa using fetchResult_range (fetch s)

/-- Claim C5: every operation that writes a record's status — the poll-cycle
step, the manual-check step, and the first-add check — overwrites a non-null
status only with a recognized canonical status or the `unknown`/`blocked`
sentinel, and never resets it to null. -/
theorem c5_status_invariant (now : Nat) (track t : String)
    (fetch : String → FetchOutcome) (tracks : List String) (info : TrackInfo)
    (h : info.status ≠ none) :
    ((checkRecordStep now track (lookupStatus (ozon_get_statuses fetch tracks) t) info).1.status ≠ none ∧
      ((checkRecordStep now track (lookupStatus (ozon_get_statuses fetch tracks) t) info).1.status ≠ info.status →
        ∃ s, (checkRecordStep now track (lookupStatus (ozon_get_statuses fetch tracks) t) info).1.status = some s ∧
          recognizedOrSentinel s)) ∧
    ((checkUserRecordStep now track (lookupStatus (ozon_get_statuses fetch tracks) t) info).1.status ≠ none ∧
      ((checkUserRecordStep now track (lookupStatus (ozon_get_statuses fetch tracks) t) info).1.status ≠ info.status →
        ∃ s, (checkUserRecordStep now track (lookupStatus (ozon_get_statuses fetch tracks) t) info).1.status = some s ∧
          recognizedOrSentinel s)) ∧
    ((firstAddCheckStep now (lookupStatus (ozon_get_statuses fetch tracks) t) info).status =
        some (lookupStatus (ozon_get_statuses fetch tracks) t).1 ∧
      recognizedOrSentinel (lookupStatus (ozon_get_statuses fetch tracks) t).1) := by
  have hrange := lookupStatus_range fetch tracks t
  refine ⟨?_, ?_, rfl, hrange⟩
  · rcases checkRecordStep_status_cases now track
      (lookupStatus (ozon_get_statuses fetch tracks) t) info with hc | hc
    · rw [hc]
      exact ⟨h, fun hne => absurd rfl hne⟩
    · rw [hc]
      exact ⟨fun hx => Option.noConfusion hx, fun _ => ⟨_, rfl, hrange⟩⟩
  · rcases checkUserRecordStep_status_cases now track
      (lookupStatus (ozon_get_statuses fetch tracks) t) info with hc | hc
    · rw [hc]
      exact ⟨h, fun hne => absurd rfl hne⟩
    · rw [hc]
      exact ⟨fun hx => Option.noConfusion hx, fun _ => ⟨_, rfl, hrange⟩⟩

/-- Witness for C5 at a concrete record and fetch oracle. -/
theorem c5_status_invariant_witness :
    (({ status := some "в пути" } : TrackInfo).status ≠ none) ∧
    ((checkRecordStep 2 "T" (lookupStatus (ozon_get_statuses
        (fun _ => FetchOutcome.page "доставлено" "") ["T"]) "T")
        { status := some "в пути" }).1.status ≠ none ∧
      ((checkRecordStep 2 "T" (lookupStatus (ozon_get_statuses
          (fun _ => FetchOutcome.page "доставлено" "") ["T"]) "T")
          { status := some "в пути" }).1.status ≠
          ({ status := some "в пути" } : TrackInfo).status →
        ∃ s, (checkRecordStep 2 "T" (lookupStatus (ozon_get_statuses
            (fun _ => FetchOutcome.page "доставлено" "") ["T"]) "T")
            { status := some "в пути" }).1.status = some s ∧
          recognizedOrSentinel s)) ∧
    ((checkUserRecordStep 2 "T" (lookupStatus (ozon_get_statuses
        (fun _ => FetchOutcome.page "доставлено" "") ["T"]) "T")
        { status := some "в пути" }).1.status ≠ none ∧
      ((checkUserRecordStep 2 "T" (lookupStatus (ozon_get_statuses
          (fun _ => FetchOutcome.page "доставлено" "") ["T"]) "T")
          { status := some "в пути" }).1.status ≠
          ({ status := some "в пути" } : TrackInfo).status →
        ∃ s, (checkUserRecordStep 2 "T" (lookupStatus (ozon_get_statuses
            (fun _ => FetchOutcome.page "доставлено" "") ["T"]) "T")
            { status := some "в пути" }).1.status = some s ∧
          recognizedOrSentinel s)) ∧
    ((firstAddCheckStep 2 (lookupStatus (ozon_get_statuses
        (fun _ => FetchOutcome.page "доставлено" "") ["T"]) "T")
        { status := some "в пути" }).status =
        some (lookupStatus (ozon_get_statuses
          (fun _ => FetchOutcome.page "доставлено" "") ["T"]) "T").1 ∧
      recognizedOrSentinel (lookupStatus (ozon_get_statuses
        (fun _ => FetchOutcome.page "доставлено" "") ["T"]) "T").1) :=
  ⟨by decide, c5_status_invariant 2 "T" "T"
    (fun _ => FetchOutcome.page "доставлено" "") ["T"]
    { status := some "в пути" } (by decide)⟩

/-! ## Claim C6 (confirmed) -/

/-- Claim C6: a corrupt or unreadable persisted document — whether the read
or `json.loads` raises (`raw = none`) or the parsed value makes the
migration raise — loads as the empty store; `load_state` is total and never
propagates the failure. -/
theorem c6_corrupt_loads_empty (cfg : String) (raw : Option J)
    (h : raw = none ∨ ∃ st, raw = some st ∧ migrate_state cfg st = none) :
    load_state cfg raw = emptyState := by
  rcases h with rfl | ⟨st, rfl, hm⟩
  · rfl
  · simp [load_state, hm]

/-- Witness for C6: a persisted document parsing to a bare string loads as
the empty store. -/
theorem c6_corrupt_loads_empty_witness :
    ((some (J.str "oops") : Option J) = none ∨
      ∃ st, (some (J.str "oops") : Option J) = some st ∧
        migrate_state "" st = none) ∧
    load_state "" (some (J.str "oops")) = emptyState :=
  ⟨Or.inr ⟨J.str "oops", rfl, rfl⟩,
    c6_corrupt_loads_empty "" (some (J.str "oops"))
      (Or.inr ⟨J.str "oops", rfl, rfl⟩)⟩

/-! ## Claim C7 (confirmed) -/

/-- Assigning a key makes it look up to the assigned value. -/
theorem lookup_setKey_self (fs : List (String × J)) (k : String) (v : J) :
    List.lookup k (setKey fs k v) = some v := by
  induction fs with
  | nil => simp [setKey, List.lookup]
  | cons p rest ih =>
    cases p with
    | mk k' v' =>
      by_cases hk : k' = k
      · simp [setKey, hk, List.lookup]
      · have hne : (k == k') = false := beq_eq_false_iff_ne.mpr (fun he => hk he.symm)
        simp [setKey, hk, List.lookup, hne, ih]

/-- Looking up a key present in the left part of an append ignores the
right part. -/
theorem lookup_append_left (fs gs : List (String × J)) (k : String)
    (h : (List.lookup k fs).isSome) :
    List.lookup k (fs ++ gs) = List.lookup k fs := by
  induction fs with
  | nil => simp [List.lookup] at h
  | cons p rest ih =>
    cases p with
    | mk k' v' =>
      by_cases hk : k = k'
      · subst hk
        simp [List.lookup]
      · have hne : (k == k') = false := beq_eq_false_iff_ne.mpr hk
        simp only [List.cons_append, List.lookup, hne] at h ⊢
        exact ih h

/-- `setdefault` leaves the lookup of an already-present key unchanged. -/
theorem lookup_setDefaultKey_present (fs : List (String × J)) (k k' : String)
    (v' : J) (h : (List.lookup k fs).isSome) :
    List.lookup k (setDefaultKey fs k' v') = List.lookup k fs := by
  unfold setDefaultKey
  by_cases hp : (List.lookup k' fs).isSome
  · simp [hp]
  · simp only [hp, if_false]
    exact lookup_append_left fs [(k', v')] k h

/-- Claim C7: a legacy flat persisted document — a non-empty tracks mapping
every key of which fully matches the tracking-number pattern — loads with
that mapping wrapped under the single owner key (the configured owner, or
the `__legacy__` placeholder when none is configured), and the subsequent
save persists exactly that upgraded owner-keyed document. -/
theorem c7_legacy_upgrade (cfg : String) (fs tfs : List (String × J))
    (hl : List.lookup "tracks" fs = some (J.obj tfs))
    (hne : tfs ≠ [])
    (hall : tfs.all (fun kv => trackFullmatch kv.1) = true) :
    ∃ fs', load_state cfg (some (J.obj fs)) = J.obj fs' ∧
      List.lookup "tracks" fs' = some (J.obj [(wrapChat cfg, J.obj tfs)]) ∧
      save_state (J.obj fs') = J.obj fs' := by
  have htr : truthy (J.obj tfs) = true := by
    simp [truthy, List.isEmpty_iff, hne]
  have hload : load_state cfg (some (J.obj fs)) =
      J.obj (setDefaultKey (setDefaultKey
        (setKey fs "tracks" (J.obj [(wrapChat cfg, J.obj tfs)])) "tracks" (J.obj []))
        "meta" (J.obj [])) := by
    simp only [load_state, migrate_state, hl, Option.getD_some, htr, if_true, hall]
  refine ⟨_, hload, ?_, rfl⟩
  have h1 : List.lookup "tracks"
      (setKey fs "tracks" (J.obj [(wrapChat cfg, J.obj tfs)])) =
      some (J.obj [(wrapChat cfg, J.obj tfs)]) := lookup_setKey_self fs _ _
  have h2 : List.lookup "tracks"
      (setDefaultKey (setKey fs "tracks" (J.obj [(wrapChat cfg, J.obj tfs)]))
        "tracks" (J.obj [])) = some (J.obj [(wrapChat cfg, J.obj tfs)]) := by
    rw [lookup_setDefaultKey_present _ _ _ _ (by rw [h1]; rfl), h1]
  rw [lookup_setDefaultKey_present _ _ _ _ (by rw [h2]; rfl), h2]

/-- Witness for C7 at a concrete legacy document and configured owner. -/
theorem c7_legacy_upgrade_witness :
    (List.lookup "tracks" c7doc = some (J.obj c7tracksFlat) ∧
      c7tracksFlat ≠ [] ∧
      c7tracksFlat.all (fun kv => trackFullmatch kv.1) = true) ∧
    ∃ fs', load_state "777" (some (J.obj c7doc)) = J.obj fs' ∧
      List.lookup "tracks" fs' = some (J.obj [(wrapChat "777", J.obj c7tracksFlat)]) ∧
      save_state (J.obj fs') = J.obj fs' :=
  ⟨⟨rfl, by simp [c7tracksFlat], rfl⟩,
    c7_legacy_upgrade "777" c7doc c7tracksFlat rfl (by simp [c7tracksFlat]) rfl⟩

/-! ## Claim C9 (corrected) -/

/-- Claim C9, as stated, is false for button callbacks: with an allow-list
owner "123" configured, a callback update from chat "999" is answered with
the alert popup "Недоступно" — a response is sent back to the unauthorized
sender. -/
theorem c9_counterexample :
    (on_button "123" 600 0 (fun _ => FetchOutcome.err "E") MODE_NONE []
      c9update).resps = [Resp.answerAlert "Недоступно"] ∧
    (on_button "123" 600 0 (fun _ => FetchOutcome.err "E") MODE_NONE []
      c9update).resps ≠ [] := by decide

/-- Claim C9 (amended): with an allow-list owner configured, updates from a
different owner are ignored silently by the message handlers (start, help,
free text — no response, no state change), while the button-callback
handler alone responds, with exactly the alert popup "Недоступно" and no
state change. -/
theorem c9_unauthorized_ignored (cfg : String) (pollSeconds now : Nat)
    (fetch : String → FetchOutcome) (mode : String) (disk : Store) (u : Update)
    (hcfg : cfg ≠ "") (hu : u.chatId ≠ cfg) :
    cmd_start cfg u = [] ∧
    cmd_help cfg pollSeconds u = [] ∧
    handle_text cfg now fetch mode disk u = ⟨[], mode, disk⟩ ∧
    (u.callbackData = none →
      on_button cfg pollSeconds now fetch mode disk u = ⟨[], mode, disk, []⟩) ∧
    (∀ d, u.callbackData = some d →
      on_button cfg pollSeconds now fetch mode disk u =
        ⟨[Resp.answerAlert "Недоступно"], mode, disk, []⟩) := by
  have h1 : (cfg == "") = false := beq_eq_false_iff_ne.mpr hcfg
  have h2 : (u.chatId == cfg) = false := beq_eq_false_iff_ne.mpr hu
  have hom : only_me cfg u = false := by simp [only_me, h1, h2]
  refine ⟨by simp [cmd_start, hom], by simp [cmd_help, hom],
    by simp [handle_text, hom], ?_, ?_⟩
  · intro hcb
    simp [on_button, hcb]
  · intro d hcb
    simp [on_button, hcb, hom]

/-- Witness for C9 (amended) at the concrete unauthorized update. -/
theorem c9_unauthorized_ignored_witness :
    ("123" ≠ "" ∧ c9update.chatId ≠ "123") ∧
    (cmd_start "123" c9update = [] ∧
      cmd_help "123" 600 c9update = [] ∧
      handle_text "123" 0 (fun _ => FetchOutcome.err "E") MODE_NONE [] c9update =
        ⟨[], MODE_NONE, []⟩ ∧
      (c9update.callbackData = none →
        on_button "123" 600 0 (fun _ => FetchOutcome.err "E") MODE_NONE [] c9update =
          ⟨[], MODE_NONE, [], []⟩) ∧
      (∀ d, c9update.callbackData = some d →
        on_button "123" 600 0 (fun _ => FetchOutcome.err "E") MODE_NONE [] c9update =
          ⟨[Resp.answerAlert "Недоступно"], MODE_NONE, [], []⟩)) :=
  ⟨⟨by decide, by decide⟩,
    c9_unauthorized_ignored "123" 600 0 (fun _ => FetchOutcome.err "E")
      MODE_NONE [] c9update (by decide) (by decide)⟩

/-! ## Claim C10 (confirmed) -/

/-- Membership in the de-duplication scan: kept iff present in the remainder
and not already seen. -/
theorem mem_dedupAux (t : String) : ∀ (l seen : List String),
    t ∈ dedupAux l seen ↔ t ∈ l ∧ t ∉ seen := by
  intro l
  induction l with
  | nil => intro seen; simp [dedupAux]
  | cons x xs ih =>
    intro seen
    by_cases hx : x ∈ seen
    · rw [dedupAux, if_pos hx, ih seen]
      constructor
      · rintro ⟨h1, h2⟩
        exact ⟨List.mem_cons_of_mem x h1, h2⟩
      · rintro ⟨h1, h2⟩
        rcases List.mem_cons.mp h1 with rfl | h1
        · exact absurd hx h2
        · exact ⟨h1, h2⟩
    · rw [dedupAux, if_neg hx]
      constructor
      · intro hm
        rcases List.mem_cons.mp hm with rfl | hm
        · exact ⟨List.mem_cons_self t xs, hx⟩
        · rcases (ih (x :: seen)).mp hm with ⟨h1, h2⟩
          exact ⟨List.mem_cons_of_mem x h1,
            fun hs => h2 (List.mem_cons_of_mem x hs)⟩
      · rintro ⟨h1, h2⟩
        by_cases htx : t = x
        · subst htx
          exact List.mem_cons_self t _
        · rcases List.mem_cons.mp h1 with rfl | h1
          · exact absurd rfl htx
          · exact List.mem_cons_of_mem x ((ih (x :: seen)).mpr
              ⟨h1, fun hs => (List.mem_cons.mp hs).elim htx h2⟩)

/-- The de-duplication scan yields no duplicates. -/
theorem nodup_dedupAux : ∀ (l seen : List String), (dedupAux l seen).Nodup := by
  intro l
  induction l with
  | nil => intro seen; simp [dedupAux]
  | cons x xs ih =>
    intro seen
    by_cases hx : x ∈ seen
    · rw [dedupAux, if_pos hx]
      exact ih seen
    · rw [dedupAux, if_neg hx]
      refine List.nodup_cons.mpr ⟨?_, ih (x :: seen)⟩
      rw [mem_dedupAux]
      rintro ⟨_, h2⟩
      exact h2 (List.mem_cons_self x seen)

/-- The de-duplication scan is an order-preserving subsequence. -/
theorem sublist_dedupAux : ∀ (l seen : List String),
    (dedupAux l seen).Sublist l := by
  intro l
  induction l with
  | nil => intro seen; simp [dedupAux]
  | cons x xs ih =>
    intro seen
    by_cases hx : x ∈ seen
    · rw [dedupAux, if_pos hx]
      exact (ih seen).trans (List.sublist_cons_self x xs)
    · rw [dedupAux, if_neg hx]
      exact (ih (x :: seen)).cons₂ x

/-- The de-duplication scan keeps first occurrences: its elements are
strictly ordered by their first-occurrence index in the input. -/
theorem pairwise_indexOf_dedupAux : ∀ (l seen : List String),
    (dedupAux l seen).Pairwise
      (fun a b => List.indexOf a l < List.indexOf b l) := by
  intro l
  induction l with
  | nil => intro seen; simp [dedupAux]
  | cons x xs ih =>
    intro seen
    by_cases hx : x ∈ seen
    · rw [dedupAux, if_pos hx]
      refine (ih seen).imp_of_mem ?_
      intro a b ha hb hlt
      have ha' := (mem_dedupAux a xs seen).mp ha
      have hb' := (mem_dedupAux b xs seen).mp hb
      have hax : a ≠ x := fun he => ha'.2 (he ▸ hx)
      have hbx : b ≠ x := fun he => hb'.2 (he ▸ hx)
      rw [List.indexOf_cons_ne xs hax.symm, List.indexOf_cons_ne xs hbx.symm]
      exact Nat.succ_lt_succ hlt
    · rw [dedupAux, if_neg hx]
      refine List.pairwise_cons.mpr ⟨?_, ?_⟩
      · intro b hb
        have hb' := (mem_dedupAux b xs (x :: seen)).mp hb
        have hbx : b ≠ x := fun he => hb'.2 (he ▸ List.mem_cons_self x seen)
        rw [List.indexOf_cons_self, List.indexOf_cons_ne xs hbx.symm]
        exact Nat.succ_pos _
      · refine (ih (x :: seen)).imp_of_mem ?_
        intro a b ha hb hlt
        have ha' := (mem_dedupAux a xs (x :: seen)).mp ha
        have hb' := (mem_dedupAux b xs (x :: seen)).mp hb
        have hax : a ≠ x := fun he => ha'.2 (he ▸ List.mem_cons_self x seen)
        have hbx : b ≠ x := fun he => hb'.2 (he ▸ List.mem_cons_self x seen)
        rw [List.indexOf_cons_ne xs hax.symm, List.indexOf_cons_ne xs hbx.symm]
        exact Nat.succ_lt_succ hlt

/-- Looking a key up in the paired map of a list containing it returns the
paired value. -/
theorem lookup_map_pair_self {α β : Type} [DecidableEq α] (f : α → β) :
    ∀ (l : List α) (t : α), t ∈ l →
      List.lookup t (l.map fun x => (x, f x)) = some (f t) := by
  intro l
  induction l with
  | nil => intro t ht; simp at ht
  | cons a as ih =>
    intro t ht
    by_cases hta : t = a
    · subst hta
      simp [List.lookup]
    · have hba : (t == a) = false := beq_eq_false_iff_ne.mpr hta
      rcases List.mem_cons.mp ht with rfl | ht'
      · exact absurd rfl hta
      · simp [List.lookup, hba, ih t ht']

/-- Despite de-duplication, the batched status map recovers the per-number
fetch result for every flattened tracking number. -/
theorem lookupStatus_dedup (fetch : String → FetchOutcome) (l : List String)
    (t : String) (ht : t ∈ l) :
    lookupStatus (ozon_get_statuses fetch (dedupFirst l)) t =
      fetchResult (fetch t) := by
  have htu : t ∈ dedupFirst l := (mem_dedupAux t l []).mpr ⟨ht, by simp⟩
  unfold lookupStatus ozon_get_statuses
  rw [lookup_map_pair_self (fun x => fetchResult (fetch x)) (dedupFirst l) t htu]
  rfl

/-- A tracking number of some owner's map occurs in the flattened list. -/
theorem mem_flatTracks (disk : Store) (p : String × List (String × TrackInfo))
    (q : String × TrackInfo) (hp : p ∈ disk) (hq : q ∈ p.2) :
    q.1 ∈ flatTracks disk := by
  unfold flatTracks
  rw [List.mem_flatten]
  exact ⟨p.2.map Prod.fst, List.mem_map_of_mem _ hp, List.mem_map_of_mem _ hq⟩

/-- Claim C10: in a whole-batch poll cycle the flattened number list is
de-duplicated before fetching — the fetched list has no duplicates, covers
exactly the flattened numbers, and is the order-preserving subsequence of
first occurrences — and every owner's record is then updated from that
single shared map, which agrees with fetching the record's own number
directly; in particular the cycle's notifications are exactly those of the
per-record steps applied to the per-number fetch results. -/
theorem c10_dedup_shared_fetch (now : Nat) (fetch : String → FetchOutcome)
    (disk : Store) :
    (dedupFirst (flatTracks disk)).Nodup ∧
    ((ozon_get_statuses fetch (dedupFirst (flatTracks disk))).map Prod.fst).Nodup ∧
    (∀ t, t ∈ dedupFirst (flatTracks disk) ↔ t ∈ flatTracks disk) ∧
    (dedupFirst (flatTracks disk)).Sublist (flatTracks disk) ∧
    (dedupFirst (flatTracks disk)).Pairwise
      (fun a b => List.indexOf a (flatTracks disk) <
        List.indexOf b (flatTracks disk)) ∧
    (∀ t, t ∈ flatTracks disk →
      lookupStatus (ozon_get_statuses fetch (dedupFirst (flatTracks disk))) t =
        fetchResult (fetch t)) ∧
    (check_all_tracks now fetch disk).2 =
      (disk.map (fun p => (p.2.map (fun q =>
        (checkRecordStep now q.1 (fetchResult (fetch q.1)) q.2).2.2.map
          (fun m => (p.1, m)))).flatten)).flatten := by
  have hkeys : (ozon_get_statuses fetch (dedupFirst (flatTracks disk))).map
      Prod.fst = dedupFirst (flatTracks disk) := by
    rw [ozon_get_statuses, List.map_map]
    exact List.map_id _
  refine ⟨nodup_dedupAux _ _, ?_, ?_, sublist_dedupAux _ _,
    pairwise_indexOf_dedupAux _ _, ?_, ?_⟩
  · rw [hkeys]
    exact nodup_dedupAux _ _
  · intro t
    rw [dedupFirst.eq_1, mem_dedupAux]
    constructor
    · exact fun h => h.1
    · exact fun h => ⟨h, by simp⟩
  · intro t ht
    exact lookupStatus_dedup fetch _ t ht
  · by_cases hd : disk.isEmpty
    · have : disk = [] := List.isEmpty_iff.mp hd
      subst this
      simp [check_all_tracks]
    · simp only [check_all_tracks, hd, Bool.false_eq_true, if_false,
        List.map_map]
      congr 1
      refine List.map_congr_left ?_
      intro p hp
      simp only [Function.comp]
      congr 1
      rw [List.map_map]
      refine List.map_congr_left ?_
      intro q hq
      simp only [Function.comp]
      rw [lookupStatus_dedup fetch _ q.1 (mem_flatTracks disk p q hp hq)]

end OzonBot
